import Mathlib

/-
Verification of the podcast-video-generator web service (src/app.py).

Shallow embedding conventions:
* Python `str` values are modelled as `List Char` (`PyStr`); Python string
  operations used by the code (`in`, `split`, `rsplit`, `lower`, slicing,
  `strip`, `int(...)`) are re-implemented as structural recursions.
* Python float arithmetic in the progress computation is modelled by exact
  rational arithmetic (`ℚ`); `int(...)` applied to a float is truncation
  toward zero (`pyTrunc`).
* The process-wide `tasks` dict is modelled as an association list with
  newest-binding-first lookup, matching Python dict assignment/overwrite
  and membership semantics for the operations the code performs.
* Effects (saving uploaded files, spawning the ffmpeg subprocess, reading
  its stdout/stderr) are modelled by explicit data: the list of persisted
  file names, the list of stdout lines, the subprocess exit code and the
  captured stderr text are inputs/outputs of the embedded functions.
-/

namespace App

/-- Python strings are modelled as lists of characters. -/
abbrev PyStr := List Char

/-- Characters of a Lean string literal; used to write concrete Python strings. -/
def pys (s : String) : PyStr := s.toList

/-- Test whether `sub` occurs at the head of the second list (helper for
Python substring containment). -/
def matchesAt : PyStr → PyStr → Bool
  | [], _ => true
  | _ :: _, [] => false
  | a :: as, b :: bs => a == b && matchesAt as bs

/-- Python `sub in s` substring containment. -/
def containsSub (sub : PyStr) : PyStr → Bool
  | [] => sub.isEmpty
  | b :: bs => matchesAt sub (b :: bs) || containsSub sub bs

/-- Python `s.split(c)`: split at every occurrence of the character `c`. -/
def splitOnChar (c : Char) : PyStr → List PyStr
  | [] => [[]]
  | a :: rest =>
    let r := splitOnChar c rest
    if a == c then [] :: r
    else
      match r with
      | [] => [[a]]
      | h :: t => (a :: h) :: t

/-- Python `s.rsplit(c, 1)[1]`: the characters after the last occurrence of
`c` (callers guard on `c ∈ s` first). -/
def afterLast (c : Char) (s : PyStr) : PyStr :=
  (s.reverse.takeWhile (fun x => x != c)).reverse

/-- Python `s.lower()`, restricted to the ASCII case folding the extension
comparison relies on. -/
def pyLower (s : PyStr) : PyStr := s.map Char.toLower

/-- Python `s.strip()`. -/
def pyStrip (s : PyStr) : PyStr :=
  ((s.dropWhile Char.isWhitespace).reverse.dropWhile Char.isWhitespace).reverse

/-- Numeric value of a list of decimal digits. -/
def digitsVal (ds : PyStr) : ℕ := ds.foldl (fun n c => 10 * n + (c.toNat - 48)) 0

/-- Python `int(s)` on a string: strips surrounding whitespace, accepts an
optional sign followed by decimal digits, and fails (raises, modelled as
`none`) on anything else. -/
def pyInt? (s : PyStr) : Option ℤ :=
  match pyStrip s with
  | [] => none
  | '-' :: ds =>
    if !ds.isEmpty && ds.all Char.isDigit then some (-(digitsVal ds : ℤ)) else none
  | '+' :: ds =>
    if !ds.isEmpty && ds.all Char.isDigit then some ((digitsVal ds : ℤ)) else none
  | ds =>
    if ds.all Char.isDigit then some ((digitsVal ds : ℤ)) else none

/-- Audio extension allow-list (src/app.py line 20). -/
def ALLOWED_AUDIO : List PyStr :=
  [pys "mp3", pys "wav", pys "m4a", pys "aac", pys "ogg", pys "flac"]

/-- Image extension allow-list (src/app.py line 21). -/
def ALLOWED_IMAGE : List PyStr :=
  [pys "jpg", pys "jpeg", pys "png", pys "webp"]

/-- Embeds `allowed_audio` (src/app.py lines 39-40):
`'.' in filename and filename.rsplit('.', 1)[1].lower() in ALLOWED_AUDIO`. -/
def allowed_audio (filename : PyStr) : Bool :=
  filename.contains '.' && ALLOWED_AUDIO.contains (pyLower (afterLast '.' filename))

/-- Embeds `allowed_image` (src/app.py lines 43-44). -/
def allowed_image (filename : PyStr) : Bool :=
  filename.contains '.' && ALLOWED_IMAGE.contains (pyLower (afterLast '.' filename))

/-- Task lifecycle states stored in the `status` field. -/
inductive Status
  | queued
  | processing
  | completed
  | failed
deriving DecidableEq

/-- One record of the `tasks` registry (src/app.py lines 196-201). -/
structure Task where
  status : Status
  progress : ℤ
  output_file : Option PyStr
  error : Option PyStr
deriving DecidableEq

/-- The fresh record created at submission (src/app.py lines 196-201). -/
def initTask : Task :=
  { status := .queued, progress := 0, output_file := none, error := none }

/-- Embeds `get_audio_duration` (src/app.py lines 47-59): ffprobe's stdout is
run through Python `float(...)`; the float parse (whose success and result
are abstracted to an `Option ℚ` input, since the format it prints is a plain
decimal) yields the duration, and any parse failure is caught by the bare
`except` and turned into `0`. -/
def get_audio_duration (stdoutValue : Option ℚ) : ℚ :=
  match stdoutValue with
  | some d => d
  | none => 0

/-- Python `int(x)` applied to a (here: rational) number truncates toward
zero, i.e. floor for nonnegative arguments and ceiling for negative ones. -/
def pyTrunc (q : ℚ) : ℤ :=
  if q < 0 then ⌈q⌉ else ⌊q⌋

/-- The progress value computed from one parsed `out_time_ms` event
(src/app.py lines 120-123):
`time_sec = time_ms / 1000000; progress = min(20 + int((time_sec / duration) * 70), 90)`.
Python float arithmetic is modelled by exact rational arithmetic. -/
def band_progress (time_ms : ℤ) (duration : ℚ) : ℤ :=
  let time_sec : ℚ := (time_ms : ℚ) / 1000000
  min (20 + pyTrunc (time_sec / duration * 70)) 90

/-- One iteration of the stdout read loop (src/app.py lines 117-126): lines
containing `out_time_ms=` have the text after the first `=` parsed as an
integer; parse failures are swallowed by the bare `except`, and the progress
field is only written when `duration > 0`. -/
def progress_step (duration : ℚ) (t : Task) (line : PyStr) : Task :=
  if containsSub (pys "out_time_ms=") line then
    match pyInt? ((splitOnChar '=' line).getD 1 []) with
    | some time_ms =>
      if 0 < duration then { t with progress := band_progress time_ms duration } else t
    | none => t
  else t

/-- The two unconditional writes entering `create_video_with_waveform`
(src/app.py lines 66-67): `status='processing'; progress=10`. -/
def start_phase (t : Task) : Task :=
  { t with status := .processing, progress := 10 }

/-- The write just before the subprocess is spawned (src/app.py line 104):
`progress=20`. -/
def pre_encode_phase (t : Task) : Task :=
  { t with progress := 20 }

/-- The whole stdout read loop (src/app.py lines 117-126) over the list of
lines the subprocess emitted. -/
def encode_loop (duration : ℚ) (lines : List PyStr) (t : Task) : Task :=
  lines.foldl (progress_step duration) t

/-- Finalization after `process.wait()` (src/app.py lines 128-138): exit
code 0 sets `status='completed'`, `progress=100` and `output_file` to the
artifact's file name; a nonzero exit code sets `status='failed'` and stores
the text read from the process's stderr in `error`. -/
def finalize (returncode : ℤ) (stderrText outputName : PyStr) (t : Task) : Task :=
  if returncode = 0 then
    { t with status := .completed, progress := 100, output_file := some outputName }
  else
    { t with status := .failed, error := some stderrText }

/-- Embeds `create_video_with_waveform` (src/app.py lines 62-138) as a
function of the subprocess's observable behaviour: the stdout lines it
emitted, the probed duration, its exit code (`process.returncode`) and its
captured stderr text, plus the artifact name `output_path.name`. -/
def create_video_with_waveform (lines : List PyStr) (duration : ℚ)
    (returncode : ℤ) (stderrText outputName : PyStr) (t : Task) : Task :=
  finalize returncode stderrText outputName
    (encode_loop duration lines (pre_encode_phase (start_phase t)))

/-- Outcome of one run of `create_video_with_waveform` as seen by its caller
`process_video_task`: either it returned normally with the final task record,
or it raised an exception carrying message `msg` while the record was in
state `tAtRaise`. -/
inductive RunOutcome
  | ok (t : Task)
  | raised (msg : PyStr) (tAtRaise : Task)
deriving DecidableEq

/-- Embeds `process_video_task` (src/app.py lines 141-147): the call is
wrapped in `try/except Exception`, and the handler overwrites `status` with
`'failed'` and `error` with `str(e)`; there is no retry, the thread ends. -/
def process_video_task (outcome : RunOutcome) : Task :=
  match outcome with
  | .ok t => t
  | .raised msg tAtRaise => { tAtRaise with status := .failed, error := some msg }

/-- Embeds `str(uuid.uuid4())[:8]` (src/app.py line 171): the task id is the
first eight characters of the drawn UUID's string form. -/
def gen_task_id (uuidStr : PyStr) : PyStr := uuidStr.take 8

/-- The multipart form of an upload request: `request.files['audio']` /
`request.files.get('cover')`. `none` means the field is absent; `some`
carries the client-supplied filename (which may be empty). -/
structure UploadReq where
  audio : Option PyStr
  cover : Option PyStr
deriving DecidableEq

/-- HTTP response of the upload endpoint: a JSON error with a status code,
or the 200 response carrying the new task id. -/
inductive UploadResp
  | err (code : ℕ) (msg : PyStr)
  | ok (taskId : PyStr)
deriving DecidableEq

/-- The arguments handed to the background `process_video_task` thread
(src/app.py lines 204-208). -/
structure JobSpec where
  audio_path : PyStr
  cover_path : PyStr
  output_path : PyStr
deriving DecidableEq

/-- Server state touched by the upload endpoint: the `tasks` registry
(newest binding first; Python dict assignment overwrites, which first-match
lookup on a consed list reproduces) and the list of file names persisted by
`.save(...)` calls, in order. -/
structure UploadState where
  registry : List (PyStr × Task)
  saved : List PyStr
deriving DecidableEq

/-- Result of one call of the upload endpoint: the HTTP response, the new
server state, and the job parameters if a background thread was started. -/
structure UploadResult where
  resp : UploadResp
  st : UploadState
  dispatched : Option JobSpec
deriving DecidableEq

/-- Path of the fixed default cover asset (src/app.py line 185). -/
def DEFAULT_COVER : PyStr := pys "static/default_cover.jpg"

/-- Upload directory path (src/app.py line 18), as a name prefixed to saved
files. -/
def UPLOAD_DIR : PyStr := pys "uploads/"

/-- Output directory path (src/app.py line 19). -/
def OUTPUT_DIR : PyStr := pys "output/"

/-- Tail of the upload handler once a cover path has been chosen
(src/app.py lines 191-213): compute the output name `f"{task_id}_video.mp4"`,
create the registry record, start the background thread and return the id. -/
def finish_upload (task_id audio_path cover_path : PyStr) (st : UploadState) :
    UploadResult :=
  let output_filename := task_id ++ pys "_video.mp4"
  let output_path := OUTPUT_DIR ++ output_filename
  { resp := .ok task_id
    st := { st with registry := (task_id, initTask) :: st.registry }
    dispatched := some ⟨audio_path, cover_path, output_path⟩ }

/-- The `else` branch of the cover handling (src/app.py lines 183-189): use
the default cover if the asset exists, otherwise reject with 400. -/
def default_cover_branch (task_id audio_path : PyStr) (defaultCoverExists : Bool)
    (st : UploadState) : UploadResult :=
  if defaultCoverExists then finish_upload task_id audio_path DEFAULT_COVER st
  else { resp := .err 400 (pys "请上传封面图片"), st := st, dispatched := none }

/-- Embeds the upload endpoint `upload_files` (src/app.py lines 155-213).
`secure` abstracts werkzeug's `secure_filename`, `uuidStr` the drawn
`uuid.uuid4()` string, and `defaultCoverExists` the filesystem check
`default_cover.exists()`. Validation order follows the source: audio
presence, audio filename nonempty, audio extension; then the audio file is
saved; then the cover is chosen (uploaded file if present, nonempty-named
and allowed, else the default asset, else a 400 error); then the task record
is created and the job dispatched. -/
def upload_files (secure : PyStr → PyStr) (uuidStr : PyStr)
    (defaultCoverExists : Bool) (req : UploadReq) (st : UploadState) :
    UploadResult :=
  match req.audio with
  | none => { resp := .err 400 (pys "请上传音频文件"), st := st, dispatched := none }
  | some audioName =>
    if audioName.isEmpty then
      { resp := .err 400 (pys "请选择音频文件"), st := st, dispatched := none }
    else if !allowed_audio audioName then
      { resp := .err 400 (pys "不支持的音频格式"), st := st, dispatched := none }
    else
      let task_id := gen_task_id uuidStr
      let audio_filename := secure (task_id ++ pys "_" ++ audioName)
      let audio_path := UPLOAD_DIR ++ audio_filename
      let st1 : UploadState := { st with saved := st.saved ++ [audio_filename] }
      match req.cover with
      | some c =>
        if !c.isEmpty && allowed_image c then
          let cover_filename := secure (task_id ++ pys "_" ++ c)
          let cover_path := UPLOAD_DIR ++ cover_filename
          let st2 : UploadState := { st1 with saved := st1.saved ++ [cover_filename] }
          finish_upload task_id audio_path cover_path st2
        else default_cover_branch task_id audio_path defaultCoverExists st1
      | none => default_cover_branch task_id audio_path defaultCoverExists st1

/-- Registry lookup, Python `tasks[task_id]` with `task_id in tasks`
membership: first (newest) binding wins. -/
def reg_get (reg : List (PyStr × Task)) (taskId : PyStr) : Option Task :=
  match reg.find? (fun p => p.1 == taskId) with
  | some p => some p.2
  | none => none

/-- HTTP responses of the download endpoint. `attachment` is the successful
`send_file(..., as_attachment=True, download_name=...)`; `serverError`
models the uncaught `TypeError` Flask would turn into a 500 if a completed
record had no `output_file` (unreachable for records the runner produced). -/
inductive HttpResp
  | jsonErr (code : ℕ) (msg : PyStr)
  | attachment (downloadName : PyStr)
  | serverError
deriving DecidableEq

/-- Embeds the download endpoint `download_video` (src/app.py lines 225-243):
404 for an unknown id, 400 if the task is not completed, 404 if the stored
artifact is absent from the output directory (`fileExists` abstracts
`output_file.exists()`), otherwise the file is sent as an attachment named
by the stored output file name. -/
def download_video (reg : List (PyStr × Task)) (fileExists : PyStr → Bool)
    (taskId : PyStr) : HttpResp :=
  match reg_get reg taskId with
  | none => .jsonErr 404 (pys "任务不存在")
  | some t =>
    if t.status ≠ .completed then .jsonErr 400 (pys "视频尚未完成")
    else
      match t.output_file with
      | none => .serverError
      | some name =>
        if fileExists name then .attachment name
        else .jsonErr 404 (pys "文件不存在")

/-- The parsed timestamp a stdout line contributes, if any: the line must
contain `out_time_ms=` and the text after its first `=` must parse as an
integer (src/app.py lines 118-120). -/
def event_of_line (line : PyStr) : Option ℤ :=
  if containsSub (pys "out_time_ms=") line then
    pyInt? ((splitOnChar '=' line).getD 1 [])
  else none

/-- The sequence of parsed `out_time_ms` timestamps of a stdout stream. -/
def events (lines : List PyStr) : List ℤ :=
  lines.filterMap event_of_line

/-- The sequence of values written to the task's `progress` field by the
read loop (src/app.py lines 117-126): one write per parsed event when the
probed duration is positive, no writes at all otherwise. -/
def progress_writes (lines : List PyStr) (duration : ℚ) : List ℤ :=
  if 0 < duration then (events lines).map (fun ms => band_progress ms duration)
  else []

/-- Every value the task's `progress` field takes during one job, in write
order: 0 at registry creation, 10 entering the runner, 20 before the
subprocess is spawned, the read-loop writes, and 100 on successful
finalization (a failed run writes no further progress). -/
def progress_trace (lines : List PyStr) (duration : ℚ) (returncode : ℤ) :
    List ℤ :=
  [0, 10, 20] ++ progress_writes lines duration ++
    (if returncode = 0 then [100] else [])

/-- Boolean check that a list of integers is non-decreasing. -/
def isMonotone : List ℤ → Bool
  | [] => true
  | [_] => true
  | a :: b :: rest => decide (a ≤ b) && isMonotone (b :: rest)

/-- Sequential executions of the upload endpoint, one `(uuid, request)` pair
per submission, threading the server state. -/
def run_uploads (secure : PyStr → PyStr) (defaultCoverExists : Bool) :
    List (PyStr × UploadReq) → UploadState → List UploadResp × UploadState
  | [], st => ([], st)
  | (u, req) :: rest, st =>
    let r := upload_files secure u defaultCoverExists req st
    let rr := run_uploads secure defaultCoverExists rest r.st
    (r.resp :: rr.1, rr.2)

/-- The task ids returned by the accepted submissions of a response list. -/
def ok_ids (resps : List UploadResp) : List PyStr :=
  resps.filterMap (fun r => match r with | .ok i => some i | .err _ _ => none)

/-- A submission whose audio part passes validation: the field is present,
the filename is nonempty and its extension is on the allow-list. -/
def valid_audio (req : UploadReq) : Prop :=
  ∃ a, req.audio = some a ∧ a.isEmpty = false ∧ allowed_audio a = true

/-- The Boolean monotonicity check agrees with `List.Chain'` of `≤`. -/
theorem isMonotone_iff (l : List ℤ) :
    isMonotone l = true ↔ l.Chain' (· ≤ ·) := by
  induction l with
  | nil => simp [isMonotone]
  | cons a t ih =>
    cases t with
    | nil => simp [isMonotone]
    | cons b rest =>
      simp [isMonotone, List.chain'_cons, ih]

/-- One loop iteration, rephrased through the event the line carries. -/
theorem progress_step_event (duration : ℚ) (t : Task) (line : PyStr) :
    progress_step duration t line =
      match event_of_line line with
      | some ms =>
        if 0 < duration then { t with progress := band_progress ms duration } else t
      | none => t := by
  unfold progress_step event_of_line
  by_cases hc : containsSub (pys "out_time_ms=") line
  · rw [if_pos hc, if_pos hc]
  · rw [if_neg hc, if_neg hc]

/-- Truncation toward zero is monotone. -/
theorem pyTrunc_mono {q₁ q₂ : ℚ} (h : q₁ ≤ q₂) : pyTrunc q₁ ≤ pyTrunc q₂ := by
  unfold pyTrunc
  by_cases h₁ : q₁ < 0 <;> by_cases h₂ : q₂ < 0
  · simp only [if_pos h₁, if_pos h₂]
    exact Int.ceil_le_ceil h
  · simp only [if_pos h₁, if_neg h₂]
    have hc : ⌈q₁⌉ ≤ 0 := Int.ceil_le.mpr (by exact_mod_cast h₁.le)
    exact le_trans hc (Int.floor_nonneg.mpr (not_lt.mp h₂))
  · exact absurd (lt_of_le_of_lt h h₂) h₁
  · simp only [if_neg h₁, if_neg h₂]
    exact Int.floor_le_floor h

/-- Truncation of a nonnegative rational is its floor, hence nonnegative. -/
theorem pyTrunc_nonneg {q : ℚ} (h : 0 ≤ q) : 0 ≤ pyTrunc q := by
  unfold pyTrunc
  rw [if_neg (not_lt.mpr h)]
  exact Int.floor_nonneg.mpr h

/-- The band value never exceeds 90 (the explicit `min(..., 90)`). -/
theorem band_progress_le (ms : ℤ) (duration : ℚ) :
    band_progress ms duration ≤ 90 := by
  unfold band_progress
  exact min_le_right _ _

/-- For a nonnegative timestamp and positive duration the band value is at
least the band floor 20. -/
theorem le_band_progress {ms : ℤ} {duration : ℚ} (hd : 0 < duration)
    (hms : 0 ≤ ms) : 20 ≤ band_progress ms duration := by
  unfold band_progress
  have hq : (0 : ℚ) ≤ (ms : ℚ) / 1000000 / duration * 70 := by
    have h₁ : (0 : ℚ) ≤ (ms : ℚ) / 1000000 := by positivity
    have h₂ : (0 : ℚ) ≤ (ms : ℚ) / 1000000 / duration := by positivity
    positivity
  refine le_min ?_ (by norm_num)
  have := pyTrunc_nonneg hq
  omega

/-- The band value is monotone in the timestamp. -/
theorem band_progress_mono {ms₁ ms₂ : ℤ} {duration : ℚ} (hd : 0 < duration)
    (h : ms₁ ≤ ms₂) : band_progress ms₁ duration ≤ band_progress ms₂ duration := by
  unfold band_progress
  have harg : (ms₁ : ℚ) / 1000000 / duration * 70 ≤
      (ms₂ : ℚ) / 1000000 / duration * 70 := by
    have hc : (ms₁ : ℚ) ≤ (ms₂ : ℚ) := by exact_mod_cast h
    gcongr
  have := pyTrunc_mono harg
  exact min_le_min (by omega) le_rfl

/-- The final value of the `progress` field after the read loop is the last
of the loop's writes, or the incoming value if the loop never wrote. -/
theorem encode_loop_progress (duration : ℚ) (lines : List PyStr) (t : Task) :
    (encode_loop duration lines t).progress =
      (progress_writes lines duration).getLastD t.progress := by
  induction lines generalizing t with
  | nil =>
    simp [encode_loop, progress_writes, events]
  | cons l rest ih =>
    have hstep : encode_loop duration (l :: rest) t =
        encode_loop duration rest (progress_step duration t l) := rfl
    rw [hstep, ih]
    rw [progress_step_event]
    cases hev : event_of_line l with
    | none =>
      simp only [progress_writes, events, List.filterMap_cons, hev]
    | some ms =>
      by_cases hd : 0 < duration
      · simp only [progress_writes, events, List.filterMap_cons, hev, if_pos hd,
          List.map_cons, List.getLastD_cons]
      · simp only [progress_writes, events, List.filterMap_cons, hev, if_neg hd,
          if_neg hd]

/-- A submission with valid audio is always accepted when the default cover
asset exists, and the returned id is the 8-character UUID truncation. -/
theorem upload_valid_ok (secure : PyStr → PyStr) (u : PyStr) (req : UploadReq)
    (st : UploadState) (h : valid_audio req) :
    (upload_files secure u true req st).resp = .ok (gen_task_id u) := by
  obtain ⟨a, ha, hne, hal⟩ := h
  unfold upload_files
  rw [ha]
  simp only [hne, hal, Bool.not_true, Bool.false_eq_true, if_false]
  cases req.cover with
  | none => rfl
  | some c =>
    by_cases hc : (!c.isEmpty && allowed_image c) = true
    · simp only [hc, if_true]
      rfl
    · simp only [hc, if_false]
      rfl

/-- Accepted ids of a sequence of valid submissions are exactly the
8-character truncations of the drawn UUID strings, in order. -/
theorem run_uploads_ids (secure : PyStr → PyStr)
    (subs : List (PyStr × UploadReq)) (st : UploadState)
    (h : ∀ p ∈ subs, valid_audio p.2) :
    ok_ids (run_uploads secure true subs st).1 =
      subs.map (fun p => gen_task_id p.1) := by
  induction subs generalizing st with
  | nil => rfl
  | cons p rest ih =>
    have h1 : valid_audio p.2 := h p (List.mem_cons_self _ _)
    have hrest : ∀ q ∈ rest, valid_audio q.2 :=
      fun q hq => h q (List.mem_cons_of_mem _ hq)
    have hok := upload_valid_ok secure p.1 p.2 st h1
    show ok_ids ((upload_files secure p.1 true p.2 st).resp ::
        (run_uploads secure true rest (upload_files secure p.1 true p.2 st).st).1) = _
    rw [ok_ids, List.filterMap_cons, hok]
    rw [show (∀ rs, List.filterMap
        (fun r => match r with | .ok i => some i | .err _ _ => none) rs = ok_ids rs)
      from fun _ => rfl]
    rw [ih _ hrest, List.map_cons]

/-- C1: when the subordinate process exits, the task record is finalized by
exit code: on exit code 0 the status becomes `completed`, progress becomes
100 and `output_file` becomes the artifact's file name; on any nonzero exit
code the status becomes `failed` and `error` holds the text captured from
the process's error stream. -/
theorem task_finalized_by_exit_code (lines : List PyStr) (duration : ℚ)
    (returncode : ℤ) (stderrText outputName : PyStr) (t : Task) :
    (returncode = 0 →
      (create_video_with_waveform lines duration returncode stderrText outputName t).status
          = .completed ∧
      (create_video_with_waveform lines duration returncode stderrText outputName t).progress
          = 100 ∧
      (create_video_with_waveform lines duration returncode stderrText outputName t).output_file
          = some outputName) ∧
    (returncode ≠ 0 →
      (create_video_with_waveform lines duration returncode stderrText outputName t).status
          = .failed ∧
      (create_video_with_waveform lines duration returncode stderrText outputName t).error
          = some stderrText) := by
  unfold create_video_with_waveform finalize
  constructor
  · intro h0
    rw [if_pos h0]
    exact ⟨rfl, rfl, rfl⟩
  · intro hne
    rw [if_neg hne]
    exact ⟨rfl, rfl⟩

/-- Witness for C1 at concrete exit codes 0 and 1. -/
theorem task_finalized_by_exit_code_witness :
    (create_video_with_waveform [] 0 0 [] (pys "t_video.mp4") initTask).status
        = .completed ∧
    (create_video_with_waveform [] 0 1 (pys "boom") (pys "t_video.mp4") initTask).status
        = .failed :=
  ⟨((task_finalized_by_exit_code [] 0 0 [] (pys "t_video.mp4") initTask).1 rfl).1,
   ((task_finalized_by_exit_code [] 0 1 (pys "boom") (pys "t_video.mp4") initTask).2
      (by decide)).1⟩

/-- C2: for every progress event carrying an elapsed (hence nonnegative)
timestamp, when the total duration is positive, the read loop writes into
the task's progress field the timestamp converted to seconds, divided by
the duration, mapped into the band as `min(20 + int(ratio * 70), 90)`, and
this written value always lies between 20 and 90 inclusive. -/
theorem progress_event_in_band (duration : ℚ) (line : PyStr) (ms : ℤ)
    (t : Task) (hd : 0 < duration) (hev : event_of_line line = some ms)
    (hms : 0 ≤ ms) :
    (progress_step duration t line).progress = band_progress ms duration ∧
    band_progress ms duration =
      min (20 + pyTrunc ((ms : ℚ) / 1000000 / duration * 70)) 90 ∧
    20 ≤ band_progress ms duration ∧ band_progress ms duration ≤ 90 := by
  refine ⟨?_, rfl, le_band_progress hd hms, band_progress_le ms duration⟩
  rw [progress_step_event, hev]
  simp only [if_pos hd]

/-- Witness for C2 at a concrete stdout line, timestamp 5 s of a 10 s file. -/
theorem progress_event_in_band_witness :
    (progress_step 10 initTask (pys "out_time_ms=5000000\n")).progress =
        band_progress 5000000 10 ∧
    band_progress 5000000 10 =
      min (20 + pyTrunc ((5000000 : ℤ) / 1000000 / 10 * 70)) 90 ∧
    20 ≤ band_progress 5000000 10 ∧ band_progress 5000000 10 ≤ 90 := by
  have h := progress_event_in_band 10 (pys "out_time_ms=5000000\n") 5000000
    initTask (by norm_num) (by decide) (by decide)
  exact_mod_cast h

/-- C7: the duration probe returns the parsed duration, or 0 whenever the
tool's output fails to parse; and with the duration at 0 the read loop
performs no band-proportional writes at all, so the progress field stays at
the band floor 20 from the subprocess spawn until finalization. -/
theorem duration_probe_contract :
    (∀ d : ℚ, get_audio_duration (some d) = d) ∧
    get_audio_duration none = 0 ∧
    (∀ (lines : List PyStr) (t : Task),
      progress_writes lines (get_audio_duration none) = [] ∧
      (encode_loop (get_audio_duration none) lines
          (pre_encode_phase (start_phase t))).progress = 20) := by
  refine ⟨fun d => rfl, rfl, fun lines t => ⟨?_, ?_⟩⟩
  · simp [progress_writes, get_audio_duration]
  · rw [encode_loop_progress]
    simp [progress_writes, get_audio_duration, pre_encode_phase, start_phase]

/-- C8: an exception raised during orchestration is caught by
`process_video_task`, which marks the task failed with the exception's
message as its error, and a normal return is passed through unchanged (no
retry path exists). -/
theorem orchestration_exception_fails_task (msg : PyStr) (tAtRaise : Task) :
    (process_video_task (.raised msg tAtRaise)).status = .failed ∧
    (process_video_task (.raised msg tAtRaise)).error = some msg ∧
    process_video_task (.raised msg tAtRaise) =
      { tAtRaise with status := .failed, error := some msg } ∧
    (∀ t, process_video_task (.ok t) = t) :=
  ⟨rfl, rfl, rfl, fun _ => rfl⟩

/-- C3 fails as stated: the loop writes whatever the stream reports, so a
subprocess whose second `out_time_ms` event is smaller than its first (here
5 s then 1 s of a 10 s file) makes the observable progress sequence
0, 10, 20, 55, 27 — a decrease before any terminal state. -/
theorem progress_monotone_counterexample :
    isMonotone (progress_trace
      [pys "out_time_ms=5000000\n", pys "out_time_ms=1000000\n"] 10 1) = false := by
  have h1 : band_progress 5000000 10 = 55 := by
    simp only [band_progress, pyTrunc]
    norm_num
  have h2 : band_progress 1000000 10 = 27 := by
    simp only [band_progress, pyTrunc]
    norm_num
  have hw : progress_writes
      [pys "out_time_ms=5000000\n", pys "out_time_ms=1000000\n"] 10 = [55, 27] := by
    rw [progress_writes, if_pos (by norm_num : (0 : ℚ) < 10)]
    rw [show events [pys "out_time_ms=5000000\n", pys "out_time_ms=1000000\n"] =
        [5000000, 1000000] from by decide]
    rw [List.map_cons, List.map_cons, List.map_nil, h1, h2]
  rw [progress_trace, hw]
  decide

/-- C3 amended: for any single task, the progress values observable by
successive polls — 0 at submission, 10, 20, the read-loop writes, 100 on
success — are non-decreasing, provided the timestamps the subprocess
reports are themselves nonnegative and non-decreasing (the code derives the
writes from the stream and does not enforce monotonicity on its own). -/
theorem progress_trace_monotone (lines : List PyStr) (duration : ℚ) (rc : ℤ)
    (hchain : isMonotone (events lines) = true)
    (hnn : ∀ ms ∈ events lines, 0 ≤ ms) :
    isMonotone (progress_trace lines duration rc) = true := by
  rw [isMonotone_iff, progress_trace]
  by_cases hd : 0 < duration
  · rw [progress_writes, if_pos hd, List.append_assoc, List.chain'_append]
    refine ⟨(isMonotone_iff _).mp (by decide), ?_, ?_⟩
    · rw [List.chain'_append]
      refine ⟨?_, ?_, ?_⟩
      · exact List.chain'_map_of_chain' _
          (fun a b hab => band_progress_mono hd hab)
          ((isMonotone_iff _).mp hchain)
      · by_cases h0 : rc = 0
        · rw [if_pos h0]
          exact List.chain'_singleton _
        · rw [if_neg h0]
          exact List.chain'_nil
      · intro x hx y hy
        rw [List.getLast?_map] at hx
        obtain ⟨e, _, rfl⟩ := Option.map_eq_some'.mp (Option.mem_def.mp hx)
        have hx90 := band_progress_le e duration
        by_cases h0 : rc = 0
        · rw [if_pos h0] at hy
          simp only [List.head?_cons, Option.mem_def, Option.some.injEq] at hy
          omega
        · rw [if_neg h0] at hy
          simp at hy
    · intro x hx y hy
      rw [show ([0, 10, 20] : List ℤ).getLast? = some 20 from rfl] at hx
      rw [Option.mem_def, Option.some.injEq] at hx
      subst hx
      cases hev : events lines with
      | nil =>
        rw [hev] at hy
        simp only [List.map_nil, List.nil_append] at hy
        by_cases h0 : rc = 0
        · rw [if_pos h0] at hy
          simp only [List.head?_cons, Option.mem_def, Option.some.injEq] at hy
          omega
        · rw [if_neg h0] at hy
          simp at hy
      | cons e es =>
        rw [hev] at hy
        simp only [List.map_cons, List.cons_append, List.head?_cons,
          Option.mem_def, Option.some.injEq] at hy
        subst hy
        have he : e ∈ events lines := by
          rw [hev]
          exact List.mem_cons_self _ _
        exact le_band_progress hd (hnn e he)
  · rw [progress_writes, if_neg hd, List.append_nil]
    by_cases h0 : rc = 0
    · rw [if_pos h0]
      exact (isMonotone_iff _).mp (by decide)
    · rw [if_neg h0]
      exact (isMonotone_iff _).mp (by decide)

/-- Witness for the amended C3 at a concrete increasing stream. -/
theorem progress_trace_monotone_witness :
    isMonotone (progress_trace
      [pys "out_time_ms=1000000\n", pys "out_time_ms=5000000\n"] 10 0) = true :=
  progress_trace_monotone
    [pys "out_time_ms=1000000\n", pys "out_time_ms=5000000\n"] 10 0
    (by decide) (by decide)

/-- C4 fails as stated: the task id is only the first eight characters of
the UUID4 string, so two accepted submissions whose drawn UUIDs differ but
share an 8-character head receive the same id (the second registry record
then shadows the first). -/
theorem task_ids_unique_counterexample :
    (upload_files id (pys "01234567-89ab-cdef") true
        ⟨some (pys "a.mp3"), none⟩ ⟨[], []⟩).resp = .ok (pys "01234567") ∧
    (upload_files id (pys "01234567-ffff-0000") true
        ⟨some (pys "b.mp3"), none⟩
        (upload_files id (pys "01234567-89ab-cdef") true
          ⟨some (pys "a.mp3"), none⟩ ⟨[], []⟩).st).resp = .ok (pys "01234567") ∧
    (pys "01234567-89ab-cdef") ≠ (pys "01234567-ffff-0000") := by
  decide

/-- C4 amended: each accepted submission's task id is the 8-character
truncation of its freshly drawn UUID4 string, so the ids of N accepted
submissions are pairwise distinct provided the 8-character truncations of
the drawn UUIDs are pairwise distinct; the code performs no collision
check, so distinctness is not unconditional. -/
theorem task_ids_distinct_of_distinct_heads (secure : PyStr → PyStr)
    (subs : List (PyStr × UploadReq)) (st : UploadState)
    (hv : ∀ p ∈ subs, valid_audio p.2)
    (hnd : (subs.map (fun p => gen_task_id p.1)).Nodup) :
    (ok_ids (run_uploads secure true subs st).1).Nodup := by
  rw [run_uploads_ids secure subs st hv]
  exact hnd

/-- Witness for the amended C4: two submissions with distinct UUID heads. -/
theorem task_ids_distinct_of_distinct_heads_witness :
    (ok_ids (run_uploads id true
      [(pys "11111111-aaaa", ⟨some (pys "a.mp3"), none⟩),
       (pys "22222222-bbbb", ⟨some (pys "b.mp3"), none⟩)] ⟨[], []⟩).1).Nodup :=
  task_ids_distinct_of_distinct_heads id
    [(pys "11111111-aaaa", ⟨some (pys "a.mp3"), none⟩),
     (pys "22222222-bbbb", ⟨some (pys "b.mp3"), none⟩)] ⟨[], []⟩
    (by
      intro p hp
      simp only [List.mem_cons, List.not_mem_nil, or_false] at hp
      rcases hp with h | h
      · subst h
        exact ⟨pys "a.mp3", rfl, by decide, by decide⟩
      · subst h
        exact ⟨pys "b.mp3", rfl, by decide, by decide⟩)
    (by decide)

/-- C5: a submission whose audio file is missing, empty-named, or carries an
extension outside the allow-list is rejected with a 400 response, the server
state is untouched (in particular no task record is created) and no job is
dispatched. -/
theorem invalid_audio_rejected (secure : PyStr → PyStr) (uuidStr : PyStr)
    (defaultCoverExists : Bool) (req : UploadReq) (st : UploadState)
    (h : req.audio = none ∨ req.audio = some [] ∨
         ∃ a, req.audio = some a ∧ allowed_audio a = false) :
    (∃ msg, (upload_files secure uuidStr defaultCoverExists req st).resp =
        .err 400 msg) ∧
    (upload_files secure uuidStr defaultCoverExists req st).st = st ∧
    (upload_files secure uuidStr defaultCoverExists req st).dispatched = none := by
  unfold upload_files
  rcases h with h | h | ⟨a, ha, hal⟩
  · rw [h]
    exact ⟨⟨_, rfl⟩, rfl, rfl⟩
  · rw [h]
    exact ⟨⟨_, rfl⟩, rfl, rfl⟩
  · rw [ha]
    simp only []
    by_cases he : a.isEmpty = true
    · rw [if_pos he]
      exact ⟨⟨_, rfl⟩, rfl, rfl⟩
    · rw [if_neg he, if_pos (show (!allowed_audio a) = true by rw [hal]; rfl)]
      exact ⟨⟨_, rfl⟩, rfl, rfl⟩

/-- Witness for C5: a `.txt` audio upload is rejected without a task. -/
theorem invalid_audio_rejected_witness :
    (∃ msg, (upload_files id (pys "u1") true
        ⟨some (pys "notes.txt"), none⟩ ⟨[], []⟩).resp = .err 400 msg) ∧
    (upload_files id (pys "u1") true
        ⟨some (pys "notes.txt"), none⟩ ⟨[], []⟩).st = ⟨[], []⟩ ∧
    (upload_files id (pys "u1") true
        ⟨some (pys "notes.txt"), none⟩ ⟨[], []⟩).dispatched = none :=
  invalid_audio_rejected id (pys "u1") true ⟨some (pys "notes.txt"), none⟩ ⟨[], []⟩
    (Or.inr (Or.inr ⟨pys "notes.txt", rfl, by decide⟩))

/-- C6: with a valid audio file, a supplied cover with an allow-listed
extension is persisted under its task-id-namespaced name and used as the
job's cover; in every other case (no cover, empty cover name, unsupported
cover extension) the fixed default cover asset is used when it exists, and
the request is rejected with 400 when it does not. -/
theorem cover_selection (secure : PyStr → PyStr) (uuidStr : PyStr)
    (defaultCoverExists : Bool) (req : UploadReq) (st : UploadState)
    (a : PyStr) (ha : req.audio = some a) (hne : a.isEmpty = false)
    (hal : allowed_audio a = true) :
    (∀ c, req.cover = some c → c.isEmpty = false → allowed_image c = true →
      (upload_files secure uuidStr defaultCoverExists req st).resp =
          .ok (gen_task_id uuidStr) ∧
      (upload_files secure uuidStr defaultCoverExists req st).st.saved =
        st.saved ++ [secure (gen_task_id uuidStr ++ pys "_" ++ a)] ++
          [secure (gen_task_id uuidStr ++ pys "_" ++ c)] ∧
      (upload_files secure uuidStr defaultCoverExists req st).dispatched =
        some ⟨UPLOAD_DIR ++ secure (gen_task_id uuidStr ++ pys "_" ++ a),
              UPLOAD_DIR ++ secure (gen_task_id uuidStr ++ pys "_" ++ c),
              OUTPUT_DIR ++ (gen_task_id uuidStr ++ pys "_video.mp4")⟩) ∧
    ((req.cover = none ∨ req.cover = some [] ∨
        ∃ c, req.cover = some c ∧ allowed_image c = false) →
      (defaultCoverExists = true →
        (upload_files secure uuidStr defaultCoverExists req st).resp =
            .ok (gen_task_id uuidStr) ∧
        ∃ j, (upload_files secure uuidStr defaultCoverExists req st).dispatched =
            some j ∧ j.cover_path = DEFAULT_COVER) ∧
      (defaultCoverExists = false →
        (upload_files secure uuidStr defaultCoverExists req st).resp =
            .err 400 (pys "请上传封面图片") ∧
        (upload_files secure uuidStr defaultCoverExists req st).st.registry =
            st.registry ∧
        (upload_files secure uuidStr defaultCoverExists req st).dispatched =
            none)) := by
  unfold upload_files
  rw [ha]
  simp only [hne, if_false, hal, Bool.not_true, Bool.false_eq_true, if_false]
  constructor
  · intro c hc hce hci
    rw [hc]
    simp only [hce, Bool.not_false, hci, Bool.and_self, if_true]
    exact ⟨rfl, by simp [finish_upload, List.append_assoc], rfl⟩
  · intro hcover
    constructor
    · intro hdce
      subst hdce
      rcases hcover with h | h | ⟨c, hc, hci⟩
      · rw [h]
        exact ⟨rfl, ⟨_, rfl, rfl⟩⟩
      · rw [h]
        simp only [List.isEmpty_nil, Bool.not_true, Bool.false_and, if_false]
        exact ⟨rfl, ⟨_, rfl, rfl⟩⟩
      · rw [hc]
        simp only [hci, Bool.and_false, if_false]
        exact ⟨rfl, ⟨_, rfl, rfl⟩⟩
    · intro hdce
      subst hdce
      rcases hcover with h | h | ⟨c, hc, hci⟩
      · rw [h]
        exact ⟨rfl, rfl, rfl⟩
      · rw [h]
        simp only [List.isEmpty_nil, Bool.not_true, Bool.false_and, if_false]
        exact ⟨rfl, rfl, rfl⟩
      · rw [hc]
        simp only [hci, Bool.and_false, if_false]
        exact ⟨rfl, rfl, rfl⟩

/-- Witness for C6: a valid cover is persisted; with no cover and no default
asset the request is rejected. -/
theorem cover_selection_witness :
    ((upload_files id (pys "01234567-x") true
        ⟨some (pys "a.mp3"), some (pys "c.png")⟩ ⟨[], []⟩).resp =
      .ok (pys "01234567") ∧
    (upload_files id (pys "01234567-x") true
        ⟨some (pys "a.mp3"), some (pys "c.png")⟩ ⟨[], []⟩).st.saved =
      [] ++ [pys "01234567_a.mp3"] ++ [pys "01234567_c.png"] ∧
    (upload_files id (pys "01234567-x") true
        ⟨some (pys "a.mp3"), some (pys "c.png")⟩ ⟨[], []⟩).dispatched =
      some ⟨UPLOAD_DIR ++ pys "01234567_a.mp3",
            UPLOAD_DIR ++ pys "01234567_c.png",
            OUTPUT_DIR ++ (pys "01234567" ++ pys "_video.mp4")⟩) ∧
    ((upload_files id (pys "01234567-x") false
        ⟨some (pys "a.mp3"), none⟩ ⟨[], []⟩).resp =
      .err 400 (pys "请上传封面图片")) := by
  constructor
  · exact (cover_selection id (pys "01234567-x") true
      ⟨some (pys "a.mp3"), some (pys "c.png")⟩ ⟨[], []⟩ (pys "a.mp3")
      rfl (by decide) (by decide)).1 (pys "c.png") rfl (by decide) (by decide)
  · exact (((cover_selection id (pys "01234567-x") false
      ⟨some (pys "a.mp3"), none⟩ ⟨[], []⟩ (pys "a.mp3")
      rfl (by decide) (by decide)).2 (Or.inl rfl)).2 rfl).1

/-- C9: a download request for an unknown task id gets 404; for a known but
not-completed task 400; for a completed task whose artifact is absent from
storage 404; otherwise the artifact is returned as an attachment whose
download name is the stored output file name. -/
theorem download_contract (reg : List (PyStr × Task)) (fileExists : PyStr → Bool)
    (taskId : PyStr) :
    (reg_get reg taskId = none →
      download_video reg fileExists taskId = .jsonErr 404 (pys "任务不存在")) ∧
    (∀ t, reg_get reg taskId = some t → t.status ≠ .completed →
      download_video reg fileExists taskId = .jsonErr 400 (pys "视频尚未完成")) ∧
    (∀ t n, reg_get reg taskId = some t → t.status = .completed →
      t.output_file = some n → fileExists n = false →
      download_video reg fileExists taskId = .jsonErr 404 (pys "文件不存在")) ∧
    (∀ t n, reg_get reg taskId = some t → t.status = .completed →
      t.output_file = some n → fileExists n = true →
      download_video reg fileExists taskId = .attachment n) := by
  refine ⟨?_, ?_, ?_, ?_⟩
  · intro h
    unfold download_video
    rw [h]
  · intro t ht hs
    unfold download_video
    rw [ht]
    simp only [if_pos hs]
  · intro t n ht hs hf hfe
    unfold download_video
    rw [ht]
    simp only [hs, ne_eq, not_true_eq_false, if_false, hf, hfe,
      Bool.false_eq_true, if_false]
  · intro t n ht hs hf hfe
    unfold download_video
    rw [ht]
    simp only [hs, ne_eq, not_true_eq_false, if_false, hf, hfe, if_true]

/-- Witness for C9 over a concrete two-task registry. -/
theorem download_contract_witness :
    download_video
      [(pys "t1", { status := .completed, progress := 100,
                    output_file := some (pys "t1_video.mp4"), error := none }),
       (pys "t2", { status := .processing, progress := 55,
                    output_file := none, error := none })]
      (fun n => n == pys "t1_video.mp4") (pys "t1") =
        .attachment (pys "t1_video.mp4") ∧
    download_video
      [(pys "t1", { status := .completed, progress := 100,
                    output_file := some (pys "t1_video.mp4"), error := none }),
       (pys "t2", { status := .processing, progress := 55,
                    output_file := none, error := none })]
      (fun n => n == pys "t1_video.mp4") (pys "t2") =
        .jsonErr 400 (pys "视频尚未完成") ∧
    download_video
      [(pys "t1", { status := .completed, progress := 100,
                    output_file := some (pys "t1_video.mp4"), error := none }),
       (pys "t2", { status := .processing, progress := 55,
                    output_file := none, error := none })]
      (fun n => n == pys "t1_video.mp4") (pys "zz") =
        .jsonErr 404 (pys "任务不存在") := by
  refine ⟨?_, ?_, ?_⟩
  · exact (download_contract _ _ (pys "t1")).2.2.2
      { status := .completed, progress := 100,
        output_file := some (pys "t1_video.mp4"), error := none }
      (pys "t1_video.mp4") (by decide) rfl rfl (by decide)
  · exact (download_contract _ _ (pys "t2")).2.1
      { status := .processing, progress := 55,
        output_file := none, error := none }
      (by decide) (by decide)
  · exact (download_contract _ _ (pys "zz")).1 (by decide)

/-- C10: the upload handler saves the audio file before validating the
cover, so a submission with valid audio that is rejected with 400 because
no valid cover was supplied and the default cover asset is absent has
already persisted the audio under its task-id-namespaced name, while the
task registry is left unchanged (no record created) and no job dispatched. -/
theorem audio_saved_before_cover_rejection (secure : PyStr → PyStr)
    (uuidStr : PyStr) (req : UploadReq) (st : UploadState) (a : PyStr)
    (ha : req.audio = some a) (hne : a.isEmpty = false)
    (hal : allowed_audio a = true)
    (hcover : req.cover = none ∨ req.cover = some [] ∨
      ∃ c, req.cover = some c ∧ allowed_image c = false) :
    (upload_files secure uuidStr false req st).resp =
        .err 400 (pys "请上传封面图片") ∧
    (upload_files secure uuidStr false req st).st.registry = st.registry ∧
    (upload_files secure uuidStr false req st).st.saved =
      st.saved ++ [secure (gen_task_id uuidStr ++ pys "_" ++ a)] ∧
    (upload_files secure uuidStr false req st).dispatched = none := by
  unfold upload_files
  rw [ha]
  simp only []
  rw [if_neg (by rw [hne]; exact Bool.false_ne_true),
    if_neg (by rw [hal]; exact Bool.false_ne_true)]
  rcases hcover with h | h | ⟨c, hc, hci⟩
  · rw [h]
    exact ⟨rfl, rfl, rfl, rfl⟩
  · rw [h]
    simp only [List.isEmpty_nil, Bool.not_true, Bool.false_and,
      Bool.false_eq_true, if_false]
    exact ⟨rfl, rfl, rfl, rfl⟩
  · rw [hc]
    simp only [hci, Bool.and_false, Bool.false_eq_true, if_false]
    exact ⟨rfl, rfl, rfl, rfl⟩

/-- Witness for C10: valid audio, unsupported cover, no default asset. -/
theorem audio_saved_before_cover_rejection_witness :
    (upload_files id (pys "01234567-x") false
        ⟨some (pys "a.mp3"), some (pys "c.txt")⟩ ⟨[], []⟩).resp =
      .err 400 (pys "请上传封面图片") ∧
    (upload_files id (pys "01234567-x") false
        ⟨some (pys "a.mp3"), some (pys "c.txt")⟩ ⟨[], []⟩).st.registry = [] ∧
    (upload_files id (pys "01234567-x") false
        ⟨some (pys "a.mp3"), some (pys "c.txt")⟩ ⟨[], []⟩).st.saved =
      [] ++ [pys "01234567_a.mp3"] ∧
    (upload_files id (pys "01234567-x") false
        ⟨some (pys "a.mp3"), some (pys "c.txt")⟩ ⟨[], []⟩).dispatched = none :=
  audio_saved_before_cover_rejection id (pys "01234567-x")
    ⟨some (pys "a.mp3"), some (pys "c.txt")⟩ ⟨[], []⟩ (pys "a.mp3")
    rfl (by decide) (by decide)
    (Or.inr (Or.inr ⟨pys "c.txt", rfl, by decide⟩))

end App
